import Mathlib

/-!
Verification development for the outbound-campaign orchestration server
(`src/server.js`).  Strings are modelled as lists of characters; the
pure helpers (`formatPhone`, `classifyOutcome`, `classifyReply`) are
translated directly from the source, and the stateful webhook/dispatch
logic is embedded as explicit state-passing functions further below.
-/

set_option maxHeartbeats 1000000

namespace OmarCaller

/-- Strings as character lists (JS strings). -/
abbrev Str := List Char

/-- Turn a Lean string literal into the character-list model. -/
def strL (s : String) : Str := s.data

/-- JS `String.prototype.toLowerCase` restricted to the ASCII range used here. -/
def lowerStr (s : Str) : Str := s.map Char.toLower

/-- Whether a prefix of the second list equals the first list. -/
def startsWithL : Str → Str → Bool
  | [], _ => true
  | _ :: _, [] => false
  | c :: p, d :: s => c = d && startsWithL p s

/-- JS `String.prototype.includes`: substring containment. -/
def containsSub (needle : Str) : Str → Bool
  | [] => needle.isEmpty
  | c :: rest => startsWithL needle (c :: rest) || containsSub needle rest

/-- JS regex word-character class `\w`: ASCII letters, digits, underscore. -/
def isWordChar (c : Char) : Bool := c.isAlphanum || c = '_'

/-- If `p` is a prefix of `s`, return the remainder of `s`. -/
def dropPre : Str → Str → Option Str
  | [], s => some s
  | _ :: _, [] => none
  | c :: p, d :: s => if c = d then dropPre p s else none

/-- Word-character status of an optional character; string edges count as non-word. -/
def isWordOpt : Option Char → Bool
  | none => false
  | some c => isWordChar c

/-- JS regex `\b`: a word boundary sits between two positions whose
word-character statuses differ. -/
def wbBoundary (a b : Option Char) : Bool := isWordOpt a != isWordOpt b

/-- Does the (nonempty) literal pattern `p` match at the current position of
`s`, with `\b` anchors on both sides?  `prev` is the character immediately
before the current position, if any. -/
def wbMatchHere (p : Str) (prev : Option Char) (s : Str) : Bool :=
  match dropPre p s with
  | none => false
  | some rest => wbBoundary prev p.head? && wbBoundary p.getLast? rest.head?

/-- Scan `s` looking for a `\b`-anchored occurrence of `p`. -/
def wbOccursAux (p : Str) : Option Char → Str → Bool
  | prev, [] => wbMatchHere p prev []
  | prev, c :: rest => wbMatchHere p prev (c :: rest) || wbOccursAux p (some c) rest

/-- JS `/\b(p)\b/.test(s)` for a literal alternative `p`. -/
def wbOccurs (p s : Str) : Bool := wbOccursAux p none s

/-- JS `/\b(p1|p2|...)\b/.test(s)`: some alternative matches somewhere. -/
def wbAnyOf (pats : List Str) (s : Str) : Bool := pats.any (fun p => wbOccurs p s)

/-- The outcome taxonomy of the classifiers (`hot`, `warm`, `completed`,
`no-answer`, `not-interested`, `sent`, `replied`, `error`). -/
inductive Outcome where
  | hot
  | warm
  | completed
  | noAnswer
  | notInterested
  | sent
  | replied
  | err
  deriving DecidableEq

/-- The fields of the provider's end-of-call report read by `classifyOutcome`
and the webhook resolver: `call.endedReason`, `call.analysis?.summary`, and
the truthiness of `call.startedAt` / `call.endedAt`. -/
structure CallReport where
  endedReason : Option Str
  summary : Option Str
  startedAt : Bool
  endedAt : Bool
  deriving DecidableEq

def noAnswerReasons : List Str :=
  [strL "customer-did-not-answer", strL "no-answer", strL "voicemail"]

def rejectReasons : List Str := [strL "do-not-call", strL "rejected"]

def hotWords : List Str :=
  [strL "book", strL "schedul", strL "appoint", strL "interested",
   strL "call back", strL "set up", strL "yes"]

def warmWords : List Str :=
  [strL "maybe", strL "follow", strL "later", strL "think about",
   strL "consider", strL "down the road"]

/-- `classifyOutcome` from src/server.js lines 40-50, translated clause by
clause.  `endedReason || ''` and `analysis?.summary || ''` become
`Option.getD` with the empty string. -/
def classifyOutcome (c : CallReport) : Outcome :=
  let reason := lowerStr (c.endedReason.getD [])
  let summ := lowerStr (c.summary.getD [])
  if noAnswerReasons.any (fun r => containsSub r reason) then .noAnswer
  else if rejectReasons.any (fun r => containsSub r reason) then .notInterested
  else if containsSub (strL "hang-up") reason && !c.startedAt then .notInterested
  else if hotWords.any (fun w => containsSub w summ) then .hot
  else if warmWords.any (fun w => containsSub w summ) then .warm
  else if containsSub (strL "ended-call") reason then .completed
  else .completed

/-- Alternatives of the affirmative regex in `classifyReply`; the optional
apostrophe of the source pattern is expanded into both spellings. -/
def hotReplyPats : List Str :=
  [strL "yes", strL "sure", strL "interested", strL "how much",
   strL "make an offer", strL "absolutely", strL "definitely",
   strL "open to it", strL "call me", strL "love to", strL "sounds good",
   strL "let\x27s talk", strL "lets talk", strL "go ahead", strL "please",
   strL "why not"]

/-- Alternatives of the hesitation regex in `classifyReply`. -/
def warmReplyPats : List Str :=
  [strL "maybe", strL "not sure", strL "think about", strL "sometime",
   strL "later", strL "possibly", strL "depends"]

/-- Alternatives of the opt-out/negative regex in `classifyReply`; the inner
redundant boundary after `no` coincides with the outer one, and the optional
apostrophe is expanded into both spellings. -/
def optOutPats : List Str :=
  [strL "no", strL "stop", strL "remove", strL "unsubscribe",
   strL "not interested", strL "opt out", strL "don\x27t contact",
   strL "dont contact", strL "wrong number", strL "leave me alone"]

/-- `classifyReply` from src/server.js lines 53-58: the three pattern sets
are tested in order on the lower-cased body. -/
def classifyReply (body : Option Str) : Outcome :=
  let b := lowerStr (body.getD [])
  if wbAnyOf hotReplyPats b then .hot
  else if wbAnyOf warmReplyPats b then .warm
  else if wbAnyOf optOutPats b then .notInterested
  else .replied

/-- JS `String(raw).replace(/\D/g, '')`: keep only digits. -/
def digitsOf (s : Str) : Str := s.filter Char.isDigit

/-- `formatPhone` from src/server.js lines 31-38. -/
def formatPhone (raw : Str) : Str :=
  let d := digitsOf raw
  if d.isEmpty then []
  else if d.length = 11 ∧ d.head? = some '1' then '+' :: d
  else if d.length = 10 then '+' :: '1' :: d
  else if 11 < d.length then '+' :: '1' :: d.drop (d.length - 10)
  else '+' :: '1' :: d

/-- A Correlation Index entry (src/server.js `callIndex` values): the
back-reference to the lead and the retry counter.  The dispatched lead
snapshot is identified by `leadIndex` here, so the snapshot field is not
duplicated. -/
structure IndexEntry where
  leadIndex : Nat
  retries : Nat
  deriving DecidableEq

/-- Dispatch status of a Lead Result (`status` field values used by the
call and SMS loops: pending, calling, initiated, sending, sent, error). -/
inductive RStatus where
  | pending
  | calling
  | initiated
  | sending
  | sent
  | errored
  deriving DecidableEq

/-- The slice of a Lead Result read by the webhook resolver's completion
check: its dispatch `status` and optional classified `outcome`.  Descriptive
fields (summary, endedReason, duration) play no role in any claim and are
elided. -/
structure LeadRes where
  status : RStatus
  outcome : Option Outcome
  deriving DecidableEq

/-- `r.outcome || r.status === 'error'` from the resolver's completion check
(src/server.js line 476). -/
def leadDone (r : LeadRes) : Bool := r.outcome.isSome || decide (r.status = RStatus.errored)

/-- The process-wide mutable state touched by the call-ended resolver, the
retry scheduler and the reconciliation endpoint, for one call-mode job:
the Correlation Index, the alert-dedup set `smsSent`, the job's results,
the pending (scheduled, not yet fired) retry timers, and event logs counting
the side effects the claims speak about: one entry per `scheduleRetry`
invocation (the retried lead's index), one entry per hot-lead alert sent
(the call identifier), and the number of `sendEmailReport` invocations. -/
structure SysState where
  callIndex : List (Nat × IndexEntry)
  smsSent : List Nat
  results : List LeadRes
  retryPending : List IndexEntry
  retrySchedLog : List Nat
  alertLog : List Nat
  emailLog : Nat
  deriving DecidableEq

/-- Initial state of a job with `n` leads (results created `pending` at
launch, src/server.js line 434). -/
def initState (n : Nat) : SysState :=
  { callIndex := [], smsSent := [],
    results := List.replicate n { status := RStatus.pending, outcome := none },
    retryPending := [], retrySchedLog := [], alertLog := [], emailLog := 0 }

/-- `callIndex.get(cid)` on the association-list model; a later `set` for the
same identifier shadows an earlier one, as in a JS `Map`. -/
def lookupEntry (cid : Nat) : List (Nat × IndexEntry) → Option IndexEntry
  | [] => none
  | (c, e) :: rest => if c = cid then some e else lookupEntry cid rest

/-- `Object.assign(job.results[i], { outcome, ... })` guarded by
`job?.results[i]` (src/server.js line 466): write the classified outcome at
index `i` if that index exists. -/
def setOutcome (rs : List LeadRes) (i : Nat) (o : Outcome) : List LeadRes :=
  match rs.get? i with
  | none => rs
  | some r => rs.set i { r with outcome := some o }

/-- The hot-lead alert guard of the resolver (src/server.js lines 468-471):
if the outcome is hot and the identifier is not in the dedup set, add it and
send the alert.  In the source the membership check and the `add` happen with
no intervening `await`, so they form one uninterrupted step. -/
def alertPart (s : SysState) (cid : Nat) (o : Outcome) : SysState :=
  if o = Outcome.hot ∧ cid ∉ s.smsSent then
    { s with smsSent := cid :: s.smsSent, alertLog := cid :: s.alertLog }
  else s

/-- The retry gate of the resolver (src/server.js line 472): on a no-answer
outcome with `info.retries < 1`, invoke `scheduleRetry(info)` — a timer is
registered carrying the entry, and the scheduling is logged.  The original
Correlation Index entry is not modified. -/
def retryPart (s : SysState) (info : IndexEntry) (o : Outcome) : SysState :=
  if o = Outcome.noAnswer ∧ info.retries < 1 then
    { s with retryPending := s.retryPending ++ [info],
             retrySchedLog := s.retrySchedLog ++ [info.leadIndex] }
  else s

/-- The completion check of the resolver (src/server.js lines 475-478): if
every lead now has an outcome or an error status, invoke `sendEmailReport`. -/
def emailPart (s : SysState) : SysState :=
  if s.results.all leadDone then { s with emailLog := s.emailLog + 1 } else s

/-- One invocation of the call-ended webhook resolver
(`POST /api/webhook/vapi`, src/server.js lines 447-480) for an
end-of-call-report carrying call identifier `cid` and report `c`: look up the
Correlation Index; on a miss do nothing; otherwise write the classified
outcome into the Lead Result, run the hot-alert guard, the retry gate, and
the completion check, in source order. -/
def webhookStep (s : SysState) (cid : Nat) (c : CallReport) : SysState :=
  match lookupEntry cid s.callIndex with
  | none => s
  | some info =>
      let o := classifyOutcome c
      emailPart (retryPart (alertPart { s with results := setOutcome s.results info.leadIndex o } cid o) info o)

/-- A successful dispatch of lead `i` by the call loop (src/server.js lines
355-357): the Lead Result is replaced by a fresh `initiated` record (the JS
object literal carries no `outcome` key) and a Correlation Index entry with
`retries: 0` is registered under the new call identifier. -/
def dispatchStep (s : SysState) (cid i : Nat) : SysState :=
  { s with
    results := s.results.set i { status := RStatus.initiated, outcome := none },
    callIndex := (cid, { leadIndex := i, retries := 0 }) :: s.callIndex }

/-- The body of a retry timer firing successfully (src/server.js lines
263-273), for the `k`-th pending timer and a fresh call identifier `ncid`:
register a new Correlation Index entry carrying `retries + 1`, and patch the
Lead Result's status back to `initiated` (the assignment mutates single
fields, so an already-written outcome is kept). -/
def retryFireStep (s : SysState) (k ncid : Nat) : SysState :=
  match s.retryPending.get? k with
  | none => s
  | some info =>
      { s with
        retryPending := s.retryPending.eraseIdx k,
        callIndex := (ncid, { info with retries := info.retries + 1 }) :: s.callIndex,
        results :=
          match s.results.get? info.leadIndex with
          | none => s.results
          | some r => s.results.set info.leadIndex { r with status := RStatus.initiated } }

/-- One reconciled row of `GET /api/results/:jobId` as seen by its hot-alert
loop: the call identifier if any, the (possibly freshly classified) outcome,
and whether the row carries a nonempty summary. -/
structure ReconRow where
  callId : Option Nat
  outcome : Outcome
  hasSummary : Bool

/-- One iteration of the reconciliation hot-alert loop (src/server.js lines
588-594): alert if the row is hot, has a call identifier not yet in the
dedup set, and has a summary; the identifier is added before the alert is
sent, with no intervening `await`. -/
def reconRowStep (s : SysState) (r : ReconRow) : SysState :=
  match r.callId with
  | none => s
  | some cid =>
      if r.outcome = Outcome.hot ∧ cid ∉ s.smsSent ∧ r.hasSummary then
        { s with smsSent := cid :: s.smsSent, alertLog := cid :: s.alertLog }
      else s

/-- One invocation of `GET /api/results/:jobId` (src/server.js lines
573-600): run the hot-alert loop over the reconciled rows, then send the
email report unconditionally. -/
def reconcileStep (s : SysState) (rows : List ReconRow) : SysState :=
  let s1 := rows.foldl reconRowStep s
  { s1 with emailLog := s1.emailLog + 1 }

/-- The events that mutate the webhook-side state: a successful dispatch, a
call-ended webhook delivery (possibly a duplicate of an earlier one), a retry
timer firing, and a reconciliation request. -/
inductive Ev where
  | dispatch (cid i : Nat)
  | webhook (cid : Nat) (c : CallReport)
  | retryFire (k ncid : Nat)
  | reconcile (rows : List ReconRow)

/-- Interpret one event. -/
def step (s : SysState) : Ev → SysState
  | Ev.dispatch cid i => dispatchStep s cid i
  | Ev.webhook cid c => webhookStep s cid c
  | Ev.retryFire k ncid => retryFireStep s k ncid
  | Ev.reconcile rows => reconcileStep s rows

/-- Run a trace of events against a fresh job with `n` leads. -/
def run (n : Nat) (tr : List Ev) : SysState := tr.foldl step (initState n)

/-- A no-answer end-of-call report. -/
def noAnsRep : CallReport :=
  { endedReason := some (strL "customer-did-not-answer"), summary := none,
    startedAt := false, endedAt := false }

/-- A normally-completed end-of-call report. -/
def doneRep : CallReport :=
  { endedReason := some (strL "customer-ended-call"), summary := none,
    startedAt := true, endedAt := true }

/-- Claim C1 counterexample trace: one lead is dispatched with call
identifier 5, then the same no-answer report for call 5 is delivered twice. -/
def c1Trace : List Ev :=
  [Ev.dispatch 5 0, Ev.webhook 5 noAnsRep, Ev.webhook 5 noAnsRep]

/-- Claim C3 counterexample trace: one lead is dispatched with call
identifier 9, then its completed report is delivered twice. -/
def c3Trace : List Ev :=
  [Ev.dispatch 9 0, Ev.webhook 9 doneRep, Ev.webhook 9 doneRep]

/-- A state holding the retry call's Correlation Index entry (retries 1)
for call 5, plus one pending retry timer captured with retries 0. -/
def retryWitnessState : SysState :=
  { callIndex := [(5, { leadIndex := 0, retries := 1 })], smsSent := [],
    results := [{ status := RStatus.initiated, outcome := none }],
    retryPending := [{ leadIndex := 0, retries := 0 }],
    retrySchedLog := [], alertLog := [], emailLog := 0 }

/-- A one-lead state whose call 7 is registered with retries 0. -/
def emailWitnessState : SysState :=
  { callIndex := [(7, { leadIndex := 0, retries := 0 })], smsSent := [],
    results := [{ status := RStatus.initiated, outcome := none }],
    retryPending := [], retrySchedLog := [], alertLog := [], emailLog := 0 }

/-- A `"hang-up"` report whose `startedAt` is absent. -/
def hangUpNoStart : CallReport :=
  { endedReason := some (strL "hang-up"), summary := some [], startedAt := false, endedAt := false }

/-- The same `"hang-up"` report except that `startedAt` is present. -/
def hangUpStarted : CallReport :=
  { endedReason := some (strL "hang-up"), summary := some [], startedAt := true, endedAt := false }

/-- An `"ended-call"` report with `endedAt` present. -/
def endedCallA : CallReport :=
  { endedReason := some (strL "ended-call"), summary := some (strL "fine"), startedAt := true, endedAt := true }

/-- The same `"ended-call"` report with `endedAt` absent. -/
def endedCallB : CallReport :=
  { endedReason := some (strL "ended-call"), summary := some (strL "fine"), startedAt := true, endedAt := false }

/-- A no-answer report whose summary nevertheless contains the buying-signal
keyword `"book"`. -/
def noAnswerHotSummary : CallReport :=
  { endedReason := some (strL "no-answer"), summary := some (strL "They want to book a call back"), startedAt := true, endedAt := true }

/-- An input lead as built by `POST /api/launch` (src/server.js lines
414-421): the mapped and trimmed identity fields. -/
structure Lead where
  firstName : Str
  lastName : Str
  phone : Str
  streetName : Str
  city : Str
  propertyValue : Str
  deriving DecidableEq

/-- `[lead.firstName, lead.lastName].filter(Boolean).join(' ')`; launch-built
leads carry no prior `name`, so the `|| lead.name || ''` fallbacks reduce to
the empty string. -/
def leadName (l : Lead) : Str :=
  List.intercalate [' '] ([l.firstName, l.lastName].filter (fun s => !s.isEmpty))

/-- The leads admitted into a job by `POST /api/launch` (src/server.js lines
412-421): cap at `limit` when given, keep only rows with a nonempty phone. -/
def launchLeads (rows : List Lead) (limit : Option Nat) : List Lead :=
  (rows.take (match limit with | some c => c | none => rows.length)).filter
    (fun l => !l.phone.isEmpty)

/-- The job's `total` field, fixed at creation (src/server.js line 432):
the number of admitted leads. -/
def launchTotal (rows : List Lead) (limit : Option Nat) : Nat :=
  (launchLeads rows limit).length

/-- What happened to one lead's probe text (src/server.js lines 94-119):
the send promise was rejected, the delivery-status fetch returned a status,
or the fetch itself threw. -/
inductive ProbeRes where
  | sendRejected
  | statusIs (st : Str)
  | fetchThrew

/-- Whether a probed lead is kept (src/server.js lines 109-119): a rejected
send is skipped; a fetched status drops the lead exactly when it is
`failed` or `undelivered`; a failed fetch keeps the lead (fail open). -/
def probeKeep : ProbeRes → Bool
  | ProbeRes.sendRejected => false
  | ProbeRes.statusIs st =>
      if st = strL "failed" ∨ st = strL "undelivered" then false else true
  | ProbeRes.fetchThrew => true

/-- `probeAndFilter` (src/server.js lines 88-123) with the provider's probe
behaviour abstracted as a function of the lead: the kept leads in their
original order. -/
def probeAndFilter (probe : Lead → ProbeRes) (leads : List Lead) : List Lead :=
  leads.filter (fun l => probeKeep (probe l))

/-- A Lead Result record as written by the dispatch loops: identity fields
spread from the lead, the computed `name`, the (possibly formatted) phone,
the dispatch status, and the optional `callId` / `outcome` / error message. -/
structure CallRes where
  firstName : Str
  lastName : Str
  name : Option Str
  phone : Str
  status : RStatus
  callId : Option Nat
  outcome : Option Outcome
  errMsg : Option Str
  deriving DecidableEq

/-- `{ ...l, status: 'pending' }` written at job creation (line 434): the raw
lead with no `name`, `callId` or `outcome` key. -/
def pendingRes (l : Lead) : CallRes :=
  { firstName := l.firstName, lastName := l.lastName, name := none, phone := l.phone,
    status := RStatus.pending, callId := none, outcome := none, errMsg := none }

/-- `{ ...lead, name, status: 'calling' }` (line 351): phone still raw. -/
def callingRes (l : Lead) : CallRes :=
  { firstName := l.firstName, lastName := l.lastName, name := some (leadName l),
    phone := l.phone, status := RStatus.calling, callId := none, outcome := none,
    errMsg := none }

/-- `{ ...lead, name, status: 'initiated', callId, phone: formatPhone(...) }`
(line 356): no `outcome` key. -/
def initiatedRes (l : Lead) (cid : Nat) : CallRes :=
  { firstName := l.firstName, lastName := l.lastName, name := some (leadName l),
    phone := formatPhone l.phone, status := RStatus.initiated, callId := some cid,
    outcome := none, errMsg := none }

/-- `{ ...lead, name, status: 'error', error, phone: formatPhone(...) }`
(line 360): no `outcome` key. -/
def errorRes (l : Lead) (msg : Str) : CallRes :=
  { firstName := l.firstName, lastName := l.lastName, name := some (leadName l),
    phone := formatPhone l.phone, status := RStatus.errored, callId := none,
    outcome := none, errMsg := some msg }

/-- `{ ...lead, name, phone, status: 'sending' }` from the SMS loop
(line 298): phone already formatted there. -/
def sendingRes (l : Lead) : CallRes :=
  { firstName := l.firstName, lastName := l.lastName, name := some (leadName l),
    phone := formatPhone l.phone, status := RStatus.sending, callId := none,
    outcome := none, errMsg := none }

/-- `{ ...lead, name, phone, status: 'sent', sentAt, outcome: 'sent' }`
(line 309): the SMS loop itself writes `outcome: 'sent'`. -/
def sentRes (l : Lead) : CallRes :=
  { firstName := l.firstName, lastName := l.lastName, name := some (leadName l),
    phone := formatPhone l.phone, status := RStatus.sent, callId := none,
    outcome := some Outcome.sent, errMsg := none }

/-- `{ ...lead, name, phone, status: 'error', error, outcome: 'error' }`
(line 311): the SMS loop itself writes `outcome: 'error'`. -/
def smsErrorRes (l : Lead) (msg : Str) : CallRes :=
  { firstName := l.firstName, lastName := l.lastName, name := some (leadName l),
    phone := formatPhone l.phone, status := RStatus.errored, callId := none,
    outcome := some Outcome.err, errMsg := some msg }

/-- An event broadcast by a dispatch loop: a per-lead result update, the two
probe progress events, or the completion summary. -/
inductive DEvent where
  | update (i : Nat) (r : CallRes)
  | probeStart
  | probeDone (valid dropped : Nat)
  | completeEv (initiated errors total : Nat)
  deriving DecidableEq

/-- Whether `jobs.has(jobId)` is false at the check before iteration `i`
(src/server.js line 345): the job was deleted before iteration `del`. -/
def delAt (del : Option Nat) (i : Nat) : Bool :=
  match del with
  | none => false
  | some d => decide (d ≤ i)

/-- The per-lead call loop (src/server.js lines 344-365), with the provider
call abstracted as `dial` (per loop index: a call identifier or an error
message): before each iteration the deletion check may break the loop;
otherwise the result at index `i` is overwritten with a `calling` record and
broadcast, then with the `initiated` or `error` record and broadcast. -/
def dispatchLoop (dial : Nat → Except Str Nat) (del : Option Nat) :
    List Lead → Nat → List CallRes → List CallRes × List DEvent
  | [], _, rs => (rs, [])
  | l :: rest, i, rs =>
      if delAt del i then (rs, [])
      else
        let r1 := callingRes l
        let r2 := match dial i with
          | Except.ok cid => initiatedRes l cid
          | Except.error msg => errorRes l msg
        let out := dispatchLoop dial del rest (i + 1) ((rs.set i r1).set i r2)
        (out.1, DEvent.update i r1 :: DEvent.update i r2 :: out.2)

/-- `processJob` (src/server.js lines 331-377): optional probe pre-pass over
the admitted leads, the per-lead loop over the filtered list starting at
index 0 against the results array created at launch, then the completion
block, which always runs — also after an early deletion break — and appends
the completion summary event. -/
def processJobModel (leads : List Lead) (useProbe : Bool) (probe : Lead → ProbeRes)
    (dial : Nat → Except Str Nat) (del : Option Nat) : List CallRes × List DEvent :=
  let callLeads := if useProbe then probeAndFilter probe leads else leads
  let out := dispatchLoop dial del callLeads 0 (leads.map pendingRes)
  let initiated := out.1.countP (fun r => decide (r.status = RStatus.initiated))
  let errs := out.1.countP (fun r => decide (r.status = RStatus.errored))
  (out.1,
   (if useProbe then
      [DEvent.probeStart, DEvent.probeDone callLeads.length (leads.length - callLeads.length)]
    else []) ++ out.2 ++ [DEvent.completeEv initiated errs callLeads.length])

/-- The per-lead SMS loop (src/server.js lines 289-316), with the provider
send abstracted as `send`: the result at index `i` is overwritten with a
`sending` record, then with the `sent` or `error` record — both of which
carry an `outcome` written by the loop itself. -/
def smsLoop (send : Nat → Except Str Unit) (del : Option Nat) :
    List Lead → Nat → List CallRes → List CallRes × List DEvent
  | [], _, rs => (rs, [])
  | l :: rest, i, rs =>
      if delAt del i then (rs, [])
      else
        let r1 := sendingRes l
        let r2 := match send i with
          | Except.ok _ => sentRes l
          | Except.error msg => smsErrorRes l msg
        let out := smsLoop send del rest (i + 1) ((rs.set i r1).set i r2)
        (out.1, DEvent.update i r1 :: DEvent.update i r2 :: out.2)

/-- `processSMSJob` (src/server.js lines 281-328): the SMS loop over the
admitted leads followed by the completion summary event. -/
def processSMSJobModel (leads : List Lead) (send : Nat → Except Str Unit)
    (del : Option Nat) : List CallRes × List DEvent :=
  let out := smsLoop send del leads 0 (leads.map pendingRes)
  let sent := out.1.countP (fun r => decide (r.status = RStatus.sent))
  let errs := out.1.countP (fun r => decide (r.status = RStatus.errored))
  (out.1, out.2 ++ [DEvent.completeEv sent errs leads.length])

/-- A result record refers to lead `l` when its identity fields are those of
`l`, the phone possibly in its normalized form. -/
def refersTo (r : CallRes) (l : Lead) : Prop :=
  r.firstName = l.firstName ∧ r.lastName = l.lastName ∧
    (r.phone = l.phone ∨ r.phone = formatPhone l.phone)

/-- A concrete lead `A`. -/
def leadA : Lead :=
  { firstName := strL "A", lastName := [], phone := strL "5550000001",
    streetName := [], city := [], propertyValue := [] }

/-- A concrete lead `B`. -/
def leadB : Lead :=
  { firstName := strL "B", lastName := [], phone := strL "5550000002",
    streetName := [], city := [], propertyValue := [] }

/-- A probe behaviour that reports lead `A`'s number `undelivered` and every
other number `delivered`. -/
def probeDropA : Lead → ProbeRes := fun l =>
  if l.phone = leadA.phone then ProbeRes.statusIs (strL "undelivered")
  else ProbeRes.statusIs (strL "delivered")

/-- A provider that accepts every call, returning identifier `100 + i`. -/
def dialOk : Nat → Except Str Nat := fun i => Except.ok (100 + i)

/-- A provider that accepts every SMS send. -/
def sendOk : Nat → Except Str Unit := fun _ => Except.ok ()

/-- The alert-dedup invariant: alerts are never duplicated and every alerted
identifier has been recorded in the dedup set. -/
def alertInvOn (al sm : List Nat) : Prop := al.Nodup ∧ ∀ cid, cid ∈ al → cid ∈ sm

/-- The alert-dedup invariant of a state. -/
def alertInv (s : SysState) : Prop := alertInvOn s.alertLog s.smsSent

lemma alertPart_retrySchedLog (s : SysState) (cid : Nat) (o : Outcome) :
    (alertPart s cid o).retrySchedLog = s.retrySchedLog := by
  unfold alertPart; split <;> rfl

lemma alertPart_results (s : SysState) (cid : Nat) (o : Outcome) :
    (alertPart s cid o).results = s.results := by
  unfold alertPart; split <;> rfl

lemma alertPart_emailLog (s : SysState) (cid : Nat) (o : Outcome) :
    (alertPart s cid o).emailLog = s.emailLog := by
  unfold alertPart; split <;> rfl

lemma retryPart_retrySchedLog (s : SysState) (info : IndexEntry) (o : Outcome) :
    (retryPart s info o).retrySchedLog =
      (if o = Outcome.noAnswer ∧ info.retries < 1 then s.retrySchedLog ++ [info.leadIndex]
       else s.retrySchedLog) := by
  unfold retryPart; split <;> rfl

lemma retryPart_results (s : SysState) (info : IndexEntry) (o : Outcome) :
    (retryPart s info o).results = s.results := by
  unfold retryPart; split <;> rfl

lemma retryPart_emailLog (s : SysState) (info : IndexEntry) (o : Outcome) :
    (retryPart s info o).emailLog = s.emailLog := by
  unfold retryPart; split <;> rfl

lemma emailPart_retrySchedLog (s : SysState) :
    (emailPart s).retrySchedLog = s.retrySchedLog := by
  unfold emailPart; split <;> rfl

lemma emailPart_results (s : SysState) : (emailPart s).results = s.results := by
  unfold emailPart; split <;> rfl

lemma emailPart_emailLog (s : SysState) :
    (emailPart s).emailLog =
      (if s.results.all leadDone then s.emailLog + 1 else s.emailLog) := by
  unfold emailPart; split <;> rfl

lemma alertInvOn_add {al sm : List Nat} {cid : Nat} (h : alertInvOn al sm)
    (hni : cid ∉ sm) : alertInvOn (cid :: al) (cid :: sm) := by
  refine ⟨List.nodup_cons.mpr ⟨fun hmem => hni (h.2 cid hmem), h.1⟩, ?_⟩
  intro x hx
  rcases List.mem_cons.mp hx with hx | hx
  · subst hx; exact List.mem_cons_self _ _
  · exact List.mem_cons_of_mem _ (h.2 x hx)

lemma alertInv_alertPart {s : SysState} (cid : Nat) (o : Outcome) (h : alertInv s) :
    alertInv (alertPart s cid o) := by
  unfold alertPart
  split
  · next hc => exact alertInvOn_add h hc.2
  · exact h

lemma alertInv_retryPart {s : SysState} (info : IndexEntry) (o : Outcome) (h : alertInv s) :
    alertInv (retryPart s info o) := by
  unfold retryPart; split
  · exact h
  · exact h

lemma alertInv_emailPart {s : SysState} (h : alertInv s) : alertInv (emailPart s) := by
  unfold emailPart; split
  · exact h
  · exact h

lemma alertInv_webhookStep {s : SysState} (cid : Nat) (c : CallReport) (h : alertInv s) :
    alertInv (webhookStep s cid c) := by
  unfold webhookStep
  split
  · exact h
  · exact alertInv_emailPart (alertInv_retryPart _ _ (alertInv_alertPart cid _ h))

lemma alertInv_dispatchStep {s : SysState} (cid i : Nat) (h : alertInv s) :
    alertInv (dispatchStep s cid i) := h

lemma alertInv_retryFireStep {s : SysState} (k ncid : Nat) (h : alertInv s) :
    alertInv (retryFireStep s k ncid) := by
  unfold retryFireStep
  split
  · exact h
  · exact h

lemma alertInv_reconRowStep {s : SysState} (r : ReconRow) (h : alertInv s) :
    alertInv (reconRowStep s r) := by
  unfold reconRowStep
  split
  · exact h
  · split
    · next hc => exact alertInvOn_add h hc.2.1
    · exact h

lemma alertInv_reconFold : ∀ (rows : List ReconRow) (s : SysState), alertInv s →
    alertInv (rows.foldl reconRowStep s)
  | [], _, h => h
  | r :: rows, _, h => alertInv_reconFold rows _ (alertInv_reconRowStep r h)

lemma alertInv_reconcileStep {s : SysState} (rows : List ReconRow) (h : alertInv s) :
    alertInv (reconcileStep s rows) :=
  alertInv_reconFold rows s h

lemma alertInv_step {s : SysState} (e : Ev) (h : alertInv s) : alertInv (step s e) := by
  cases e with
  | dispatch cid i => exact alertInv_dispatchStep cid i h
  | webhook cid c => exact alertInv_webhookStep cid c h
  | retryFire k ncid => exact alertInv_retryFireStep k ncid h
  | reconcile rows => exact alertInv_reconcileStep rows h

lemma alertInv_foldl : ∀ (tr : List Ev) (s : SysState), alertInv s →
    alertInv (tr.foldl step s)
  | [], _, h => h
  | e :: tr, _, h => alertInv_foldl tr _ (alertInv_step e h)

lemma alertInv_init (n : Nat) : alertInv (initState n) :=
  ⟨List.nodup_nil, fun _ hx => absurd hx (List.not_mem_nil _)⟩

lemma listGet?SetNe {α : Type _} : ∀ (l : List α) (i j : Nat) (a : α), i ≠ j →
    (l.set i a).get? j = l.get? j
  | [], _, _, _, _ => rfl
  | _ :: _, 0, 0, _, h => absurd rfl h
  | _ :: _, 0, _ + 1, _, _ => rfl
  | _ :: _, _ + 1, 0, _, _ => rfl
  | _ :: xs, i + 1, j + 1, a, h =>
      listGet?SetNe xs i j a (fun hh => h (congrArg Nat.succ hh))

lemma listGet?SetSelf {α : Type _} : ∀ (l : List α) (i : Nat) (a : α), i < l.length →
    (l.set i a).get? i = some a
  | [], i, _, h => absurd h (Nat.not_lt_zero i)
  | _ :: _, 0, _, _ => rfl
  | _ :: xs, i + 1, a, h => listGet?SetSelf xs i a (Nat.lt_of_succ_lt_succ h)

lemma dispatchLoop_fst_length (dial : Nat → Except Str Nat) (del : Option Nat)
    (L : List Lead) : ∀ (i : Nat) (rs : List CallRes),
    ((dispatchLoop dial del L i rs).1).length = rs.length := by
  induction L with
  | nil => intro i rs; rfl
  | cons l rest ih =>
    intro i rs
    unfold dispatchLoop
    split
    · rfl
    · dsimp only
      rw [ih (i + 1) _]
      simp [List.length_set]

lemma dispatchLoop_fst_get?_lower (dial : Nat → Except Str Nat) (del : Option Nat)
    (L : List Lead) : ∀ (i : Nat) (rs : List CallRes) (j : Nat), j < i →
    ((dispatchLoop dial del L i rs).1).get? j = rs.get? j := by
  induction L with
  | nil => intro i rs j _; rfl
  | cons l rest ih =>
    intro i rs j hj
    unfold dispatchLoop
    split
    · rfl
    · dsimp only
      rw [ih (i + 1) _ j (by omega)]
      rw [listGet?SetNe _ _ _ _ (by omega), listGet?SetNe _ _ _ _ (by omega)]

lemma dispatchLoop_refers (dial : Nat → Except Str Nat) (del : Option Nat)
    (L : List Lead) : ∀ (i : Nat) (rs : List CallRes),
    (∀ j l, L.get? j = some l → rs.get? (i + j) = some (pendingRes l)) →
    (i + L.length ≤ rs.length) →
    ∀ j l, L.get? j = some l →
    ∃ r, ((dispatchLoop dial del L i rs).1).get? (i + j) = some r ∧ refersTo r l := by
  induction L with
  | nil => intro i rs _ _ j l hj; simp at hj
  | cons l0 rest ih =>
    intro i rs hpre hlen j l hj
    unfold dispatchLoop
    split
    · exact ⟨pendingRes l, hpre j l hj, rfl, rfl, Or.inl rfl⟩
    · dsimp only
      cases j with
      | zero =>
        have hl : l0 = l := by simpa using hj
        rw [dispatchLoop_fst_get?_lower dial del rest (i + 1) _ (i + 0) (by omega)]
        rw [show i + 0 = i from rfl]
        rw [listGet?SetSelf _ _ _ (by simp only [List.length_set]; simp at hlen; omega)]
        subst hl
        refine ⟨_, rfl, ?_⟩
        cases dial i with
        | ok cid => exact ⟨rfl, rfl, Or.inr rfl⟩
        | error m => exact ⟨rfl, rfl, Or.inr rfl⟩
      | succ j' =>
        have hj' : rest.get? j' = some l := hj
        have hlen' : (i + 1) + rest.length ≤
            ((rs.set i (callingRes l0)).set i
              (match dial i with
               | Except.ok cid => initiatedRes l0 cid
               | Except.error msg => errorRes l0 msg)).length := by
          simp only [List.length_set]
          simp at hlen
          omega
        have hpre' : ∀ j l, rest.get? j = some l →
            ((rs.set i (callingRes l0)).set i
              (match dial i with
               | Except.ok cid => initiatedRes l0 cid
               | Except.error msg => errorRes l0 msg)).get? ((i + 1) + j) =
              some (pendingRes l) := by
          intro j l h
          rw [listGet?SetNe _ _ _ _ (by omega), listGet?SetNe _ _ _ _ (by omega)]
          rw [show (i + 1) + j = i + (j + 1) from by omega]
          exact hpre (j + 1) l h
        have hres := ih (i + 1) _ hpre' hlen' j' l hj'
        rw [show i + (j' + 1) = (i + 1) + j' from by omega]
        exact hres

lemma dispatchLoop_update_lt_del (dial : Nat → Except Str Nat) (d : Nat)
    (L : List Lead) : ∀ (i : Nat) (rs : List CallRes) (j : Nat) (r : CallRes),
    DEvent.update j r ∈ (dispatchLoop dial (some d) L i rs).2 → j < d := by
  induction L with
  | nil => intro i rs j r h; simp [dispatchLoop] at h
  | cons l rest ih =>
    intro i rs j r h
    unfold dispatchLoop at h
    split at h
    · simp at h
    · next hdel =>
      have hd : ¬ d ≤ i := by simpa [delAt] using hdel
      dsimp only at h
      rcases List.mem_cons.mp h with h1 | h
      · have : j = i := by injection h1
        omega
      rcases List.mem_cons.mp h with h2 | h3
      · have : j = i := by injection h2
        omega
      · exact ih (i + 1) _ j r h3

lemma dispatchLoop_outcome_none (dial : Nat → Except Str Nat) (del : Option Nat)
    (L : List Lead) : ∀ (i : Nat) (rs : List CallRes),
    (∀ r ∈ rs, r.outcome = none) →
    ∀ r ∈ (dispatchLoop dial del L i rs).1, r.outcome = none := by
  induction L with
  | nil => intro i rs h r hr; exact h r hr
  | cons l rest ih =>
    intro i rs h r hr
    unfold dispatchLoop at hr
    split at hr
    · exact h r hr
    · dsimp only at hr
      refine ih (i + 1) _ ?_ r hr
      intro x hx
      rcases List.mem_or_eq_of_mem_set hx with hx' | hx'
      · rcases List.mem_or_eq_of_mem_set hx' with hx'' | hx''
        · exact h x hx''
        · subst hx''; rfl
      · cases hd : dial i with
        | ok cid => rw [hd] at hx'; subst hx'; rfl
        | error m => rw [hd] at hx'; subst hx'; rfl

lemma smsLoop_outcome_shape (send : Nat → Except Str Unit) (del : Option Nat)
    (L : List Lead) : ∀ (i : Nat) (rs : List CallRes),
    (∀ r ∈ rs, r.outcome = none ∨ r.outcome = some Outcome.sent ∨ r.outcome = some Outcome.err) →
    ∀ r ∈ (smsLoop send del L i rs).1,
      r.outcome = none ∨ r.outcome = some Outcome.sent ∨ r.outcome = some Outcome.err := by
  induction L with
  | nil => intro i rs h r hr; exact h r hr
  | cons l rest ih =>
    intro i rs h r hr
    unfold smsLoop at hr
    split at hr
    · exact h r hr
    · dsimp only at hr
      refine ih (i + 1) _ ?_ r hr
      intro x hx
      rcases List.mem_or_eq_of_mem_set hx with hx' | hx'
      · rcases List.mem_or_eq_of_mem_set hx' with hx'' | hx''
        · exact h x hx''
        · subst hx''; exact Or.inl rfl
      · cases hd : send i with
        | ok u => rw [hd] at hx'; subst hx'; exact Or.inr (Or.inl rfl)
        | error m => rw [hd] at hx'; subst hx'; exact Or.inr (Or.inr rfl)

/-- Claim C4, counterexample: the claim says identical `(endedReason, summary)`
pairs always yield the same outcome, but `classifyOutcome` also reads
`call.startedAt`: with `endedReason = "hang-up"` and an empty summary, a
missing `startedAt` gives `not-interested` while a present one gives
`completed`. -/
theorem c4_pair_determinism_counterexample :
    hangUpNoStart.endedReason = hangUpStarted.endedReason
    ∧ hangUpNoStart.summary = hangUpStarted.summary
    ∧ classifyOutcome hangUpNoStart ≠ classifyOutcome hangUpStarted :=
  ⟨rfl, rfl, by decide⟩

/-- Claim C4, amended: `classifyOutcome` is a deterministic total function of
the triple `(endedReason, summary, startedAt)` — it ignores every other field
of the report — and a no-answer/voicemail pattern in the lower-cased
end-reason forces the outcome `no-answer` regardless of the summary, even when
the summary contains a buying-signal keyword. -/
theorem c4_classifyOutcome_det_and_priority :
    (∀ c1 c2 : CallReport, c1.endedReason = c2.endedReason → c1.summary = c2.summary →
      c1.startedAt = c2.startedAt → classifyOutcome c1 = classifyOutcome c2)
    ∧ (∀ c : CallReport,
        noAnswerReasons.any (fun r => containsSub r (lowerStr (c.endedReason.getD []))) = true →
        classifyOutcome c = Outcome.noAnswer) := by
  constructor
  · intro c1 c2 h1 h2 h3
    obtain ⟨r1, s1, st1, e1⟩ := c1
    obtain ⟨r2, s2, st2, e2⟩ := c2
    simp only at h1 h2 h3
    subst h1; subst h2; subst h3
    rfl
  · intro c h
    unfold classifyOutcome
    simp only [h, if_true]

/-- Claim C4, witness: the amended theorem applied at concrete reports; the
second application shows `"no-answer"` overriding a summary that contains the
buying-signal keyword `"book"`. -/
theorem c4_witness :
    classifyOutcome endedCallA = classifyOutcome endedCallB
    ∧ classifyOutcome noAnswerHotSummary = Outcome.noAnswer :=
  ⟨c4_classifyOutcome_det_and_priority.1 _ _ rfl rfl rfl,
   c4_classifyOutcome_det_and_priority.2 _ (by decide)⟩

/-- Claim C9: `formatPhone` maps a 10-digit input to `+1` plus the digits,
keeps an 11-digit input starting with `1` as `+` plus the digits, and for
more than 11 digits keeps only the trailing 10 prefixed with `+1`. -/
theorem c9_formatPhone_normalizes (raw : Str) :
    ((digitsOf raw).length = 10 → formatPhone raw = '+' :: '1' :: digitsOf raw)
    ∧ ((digitsOf raw).length = 11 → (digitsOf raw).head? = some '1' →
        formatPhone raw = '+' :: digitsOf raw)
    ∧ (11 < (digitsOf raw).length →
        formatPhone raw = '+' :: '1' :: (digitsOf raw).drop ((digitsOf raw).length - 10)) := by
  unfold formatPhone
  refine ⟨?_, ?_, ?_⟩
  · intro h10
    rw [if_neg, if_neg, if_pos h10]
    · rintro ⟨h11, _⟩; omega
    · cases hd : digitsOf raw with
      | nil => rw [hd] at h10; simp at h10
      | cons a l => simp
  · intro h11 h1
    rw [if_neg, if_pos ⟨h11, h1⟩]
    cases hd : digitsOf raw with
    | nil => rw [hd] at h11; simp at h11
    | cons a l => simp
  · intro hgt
    rw [if_neg, if_neg, if_neg, if_pos hgt]
    · omega
    · rintro ⟨h11, _⟩; omega
    · cases hd : digitsOf raw with
      | nil => rw [hd] at hgt; simp at hgt
      | cons a l => simp

/-- Claim C9, witness: the three branches of the normalization theorem at
concrete inputs with 10, 11 and 13 digits. -/
theorem c9_witness :
    formatPhone (strL "(555) 010-2030") = strL "+15550102030"
    ∧ formatPhone (strL "1 555 010 2030") = strL "+15550102030"
    ∧ formatPhone (strL "99 1 555 010 2030") = strL "+15550102030" := by
  refine ⟨?_, ?_, ?_⟩
  · have h := (c9_formatPhone_normalizes (strL "(555) 010-2030")).1 (by decide)
    rw [h]; decide
  · have h := (c9_formatPhone_normalizes (strL "1 555 010 2030")).2.1 (by decide) (by decide)
    rw [h]; decide
  · have h := (c9_formatPhone_normalizes (strL "99 1 555 010 2030")).2.2 (by decide)
    rw [h]; decide

/-- Claim C10: any body whose lower-cased text contains the standalone word
`"interested"` is classified `hot`, because the affirmative pattern set is
tested first and its word-boundary match on `"interested"` succeeds — in
particular inside the phrase `"not interested"`, which also matches the
opt-out set tested later. -/
theorem c10_interested_is_hot (body : Str)
    (h : wbOccurs (strL "interested") (lowerStr body) = true) :
    classifyReply (some body) = Outcome.hot := by
  unfold classifyReply
  have hany : wbAnyOf hotReplyPats (lowerStr ((some body).getD [])) = true := by
    rw [Option.getD_some]
    exact List.any_eq_true.mpr ⟨strL "interested", by decide, h⟩
  simp only [hany, if_true]

/-- Claim C10, witness: `"Not interested"` contains the standalone word
`"interested"`, is classified `hot` by the theorem, and also matches the
opt-out pattern set. -/
theorem c10_witness :
    classifyReply (some (strL "Not interested")) = Outcome.hot
    ∧ wbAnyOf optOutPats (lowerStr (strL "Not interested")) = true :=
  ⟨c10_interested_is_hot (strL "Not interested") (by decide), by decide⟩

/-- Claim C1, counterexample: the claim says at most one retry is ever
scheduled per lead, but the resolver never increments the original
Correlation Index entry's `retries` counter — only the entry registered for
the retry call carries `retries: 1`.  Delivering the same no-answer report
for call 5 twice therefore passes the `retries < 1` gate twice and schedules
two retry timers for lead 0. -/
theorem c1_retry_counterexample : ((run 1 c1Trace).retrySchedLog.count 0) = 2 := by decide

/-- Claim C1, amended: a retry is scheduled only when the classified outcome
is no-answer and the looked-up entry's `retries` is below 1 (conjuncts 3
and 4); the entry registered for a fired retry carries `retries` incremented
by one (conjunct 2); hence a no-answer arriving under the retry call's own
identifier, whose entry has `retries = 1`, schedules nothing (conjunct 1).
A second no-answer for the same lead fails to schedule only when it arrives
under the retry call's identifier; a duplicate delivery under the original
identifier schedules again, as the counterexample shows. -/
theorem c1_retry_gate :
    (∀ (s : SysState) (cid : Nat) (c : CallReport) (e : IndexEntry),
      lookupEntry cid s.callIndex = some e → 1 ≤ e.retries →
      (webhookStep s cid c).retrySchedLog = s.retrySchedLog)
    ∧ (∀ (s : SysState) (k ncid : Nat) (info : IndexEntry),
        s.retryPending.get? k = some info →
        lookupEntry ncid (retryFireStep s k ncid).callIndex =
          some { leadIndex := info.leadIndex, retries := info.retries + 1 })
    ∧ (∀ (s : SysState) (cid : Nat) (c : CallReport) (e : IndexEntry),
        lookupEntry cid s.callIndex = some e → classifyOutcome c = Outcome.noAnswer →
        e.retries = 0 →
        (webhookStep s cid c).retrySchedLog = s.retrySchedLog ++ [e.leadIndex])
    ∧ (∀ (s : SysState) (cid : Nat) (c : CallReport) (e : IndexEntry),
        lookupEntry cid s.callIndex = some e →
        (webhookStep s cid c).retrySchedLog ≠ s.retrySchedLog →
        classifyOutcome c = Outcome.noAnswer ∧ e.retries = 0) := by
  refine ⟨?_, ?_, ?_, ?_⟩
  · intro s cid c e hl hr
    simp only [webhookStep, hl, emailPart_retrySchedLog, retryPart_retrySchedLog,
      alertPart_retrySchedLog]
    rw [if_neg]
    · rintro ⟨_, hlt⟩; omega
  · intro s k ncid info hk
    simp only [retryFireStep, hk, lookupEntry, if_pos]
  · intro s cid c e hl hno hz
    simp only [webhookStep, hl, emailPart_retrySchedLog, retryPart_retrySchedLog,
      alertPart_retrySchedLog]
    rw [if_pos ⟨hno, by omega⟩]
  · intro s cid c e hl hne
    simp only [webhookStep, hl, emailPart_retrySchedLog, retryPart_retrySchedLog,
      alertPart_retrySchedLog] at hne
    by_cases hcond : classifyOutcome c = Outcome.noAnswer ∧ e.retries < 1
    · exact ⟨hcond.1, by omega⟩
    · rw [if_neg hcond] at hne
      exact absurd rfl hne

/-- Claim C1, witness: the amended theorem at concrete states — a no-answer
for call 5, whose entry carries `retries = 1`, schedules nothing; a fired
retry registers the fresh call 9 with `retries = 1`; and a no-answer for
call 7, whose entry carries `retries = 0`, schedules lead 0 once. -/
theorem c1_witness :
    (webhookStep retryWitnessState 5 noAnsRep).retrySchedLog = retryWitnessState.retrySchedLog
    ∧ lookupEntry 9 (retryFireStep retryWitnessState 0 9).callIndex =
        some { leadIndex := 0, retries := 1 }
    ∧ (webhookStep emailWitnessState 7 noAnsRep).retrySchedLog =
        emailWitnessState.retrySchedLog ++ [0] :=
  ⟨c1_retry_gate.1 retryWitnessState 5 noAnsRep { leadIndex := 0, retries := 1 }
      (by decide) (by decide),
   c1_retry_gate.2.1 retryWitnessState 0 9 { leadIndex := 0, retries := 0 } (by decide),
   c1_retry_gate.2.2.1 emailWitnessState 7 noAnsRep { leadIndex := 0, retries := 0 }
      (by decide) (by decide) (by decide)⟩

/-- Claim C2: across every trace of dispatches, webhook deliveries (including
duplicates), retry firings and reconciliation requests, a call identifier is
alerted at most once: both alert sites check the dedup set and add to it in
the same uninterrupted step, so the alert log never holds a duplicate. -/
theorem c2_alert_at_most_once (n : Nat) (tr : List Ev) (cid : Nat) :
    ((run n tr).alertLog.count cid) ≤ 1 :=
  List.nodup_iff_count_le_one.mp (alertInv_foldl tr (initState n) (alertInv_init n)).1 cid

/-- Claim C3, counterexample: the claim says aggregate reporting runs exactly
once per job, but the resolver has no per-job guard: once every lead has an
outcome, each further webhook for a known call (here a duplicate delivery of
call 9's report) runs `sendEmailReport` again, so two deliveries produce two
reports. -/
theorem c3_email_counterexample : (run 1 c3Trace).emailLog = 2 := by decide

/-- Claim C3, amended: the resolver triggers the email report every time a
webhook for a known call identifier arrives and, after the update, every
lead has an outcome or an error status — there is no once-per-job guard, so
duplicate deliveries after completion each trigger reporting again; webhooks
for unknown identifiers change nothing. -/
theorem c3_email_every_completion_check :
    (∀ (s : SysState) (cid : Nat) (c : CallReport),
      lookupEntry cid s.callIndex = none → webhookStep s cid c = s)
    ∧ (∀ (s : SysState) (cid : Nat) (c : CallReport) (e : IndexEntry),
        lookupEntry cid s.callIndex = some e →
        (webhookStep s cid c).emailLog =
          (if (webhookStep s cid c).results.all leadDone then s.emailLog + 1
           else s.emailLog)) := by
  constructor
  · intro s cid c hl
    simp only [webhookStep, hl]
  · intro s cid c e hl
    simp only [webhookStep, hl, emailPart_emailLog, emailPart_results,
      retryPart_emailLog, retryPart_results, alertPart_emailLog, alertPart_results]

/-- Claim C3, witness: the amended theorem at concrete inputs — an unknown
call identifier is a no-op on the empty job, and a known call's webhook
increments the report count exactly when the post-update results are all
done. -/
theorem c3_witness :
    webhookStep (initState 0) 3 doneRep = initState 0
    ∧ (webhookStep emailWitnessState 7 doneRep).emailLog =
        (if (webhookStep emailWitnessState 7 doneRep).results.all leadDone then
          emailWitnessState.emailLog + 1
         else emailWitnessState.emailLog) :=
  ⟨c3_email_every_completion_check.1 (initState 0) 3 doneRep (by decide),
   c3_email_every_completion_check.2 emailWitnessState 7 doneRep
      { leadIndex := 0, retries := 0 } (by decide)⟩

/-- Claim C5, counterexample: the claim says a probe job's `total` equals the
lead count after probe filtering, but `total` is fixed at job creation
(line 432), before `processJob` runs the probe: with two admitted leads of
which the probe drops one, `total` is 2 while the post-probe count is 1. -/
theorem c5_total_counterexample :
    launchTotal [leadA, leadB] none = 2
    ∧ (probeAndFilter probeDropA (launchLeads [leadA, leadB] none)).length = 1 := by decide

/-- Claim C5, amended: `total` equals the count of leads admitted by the
launch filter (cap plus nonempty-phone), fixed at creation before the probe
pre-pass; the results array keeps that pre-probe length through a probe run,
and probe filtering can only shrink the dispatched list below `total`,
never update it. -/
theorem c5_total_fixed_before_probe (rows : List Lead) (limit : Option Nat)
    (probe : Lead → ProbeRes) (dial : Nat → Except Str Nat) (del : Option Nat) :
    launchTotal rows limit = (launchLeads rows limit).length
    ∧ ((processJobModel (launchLeads rows limit) true probe dial del).1).length =
        launchTotal rows limit
    ∧ (probeAndFilter probe (launchLeads rows limit)).length ≤ launchTotal rows limit := by
  refine ⟨rfl, ?_, ?_⟩
  · unfold processJobModel
    dsimp only
    rw [dispatchLoop_fst_length]
    simp [launchTotal, List.length_map]
  · unfold probeAndFilter launchTotal
    exact List.length_filter_le _ _

/-- Claim C6, counterexample: at creation index 0 of the results array holds
lead `A`; after a probe run that drops `A`, the dispatch loop iterates over
the filtered list with fresh indices and overwrites index 0 with lead `B`'s
identity fields, so the index is not the lead's identity in probe runs. -/
theorem c6_index_counterexample :
    ((([leadA, leadB]).map pendingRes).get? 0).map (fun r => r.firstName) = some (strL "A")
    ∧ (((processJobModel [leadA, leadB] true probeDropA dialOk none).1).get? 0).map
        (fun r => r.firstName) = some (strL "B") := by decide

/-- Claim C6, amended: whenever the dispatched list equals the admitted list
— the probe pre-pass disabled or dropping nothing — every index of the
results array refers to the same original lead for the job's lifetime (its
identity fields are the lead's, the phone possibly normalized); when the
probe drops leads, the loop instead rewrites lower indices with the
surviving leads' identities, as the counterexample shows. -/
theorem c6_index_stable_without_drop (leads : List Lead) (useProbe : Bool)
    (probe : Lead → ProbeRes) (dial : Nat → Except Str Nat) (del : Option Nat)
    (hsame : (if useProbe then probeAndFilter probe leads else leads) = leads)
    (j : Nat) (l : Lead) (hj : leads.get? j = some l) :
    ∃ r, ((processJobModel leads useProbe probe dial del).1).get? j = some r ∧
      refersTo r l := by
  unfold processJobModel
  dsimp only
  rw [hsame]
  have hpre : ∀ j l, leads.get? j = some l →
      (leads.map pendingRes).get? (0 + j) = some (pendingRes l) := by
    intro j l h
    rw [Nat.zero_add]
    have hm : (leads.map pendingRes).get? j = (leads.get? j).map pendingRes := by
      simp [List.get?_eq_getElem?, List.getElem?_map]
    rw [hm, h]
    rfl
  have hlen : 0 + leads.length ≤ (leads.map pendingRes).length := by simp
  have hres := dispatchLoop_refers dial del leads 0 (leads.map pendingRes) hpre hlen j l hj
  rwa [Nat.zero_add] at hres

/-- Claim C6, witness: the amended theorem on a one-lead no-probe job. -/
theorem c6_witness :
    ∃ r, ((processJobModel [leadA] false probeDropA dialOk none).1).get? 0 = some r ∧
      refersTo r leadA :=
  c6_index_stable_without_drop [leadA] false probeDropA dialOk none rfl 0 leadA rfl

/-- Claim C7, counterexample: the claim says a loop that detects deletion
broadcasts no further events, but after the `break` the completion block
still runs (lines 367-377): a job deleted before iteration 0 still emits the
completion summary event. -/
theorem c7_deleted_still_completes :
    (processJobModel [leadA] false probeDropA dialOk (some 0)).2 =
      [DEvent.completeEv 0 0 1] := by decide

/-- Claim C7, amended: when the job is deleted before iteration `d`, the
dispatch loop stops without acting on any lead of index `d` or beyond — every
per-lead update event concerns an earlier index — and the model is a total
function, so nothing is thrown; but the completion block still runs, so the
event stream still ends with the completion summary event. -/
theorem c7_halt_without_throw (leads : List Lead) (probe : Lead → ProbeRes)
    (dial : Nat → Except Str Nat) (d : Nat) :
    (∀ j r, DEvent.update j r ∈ (processJobModel leads false probe dial (some d)).2 →
      j < d)
    ∧ ∃ a b t, ((processJobModel leads false probe dial (some d)).2).getLast? =
        some (DEvent.completeEv a b t) := by
  constructor
  · intro j r h
    unfold processJobModel at h
    simp only [Bool.false_eq_true, if_false, List.nil_append] at h
    rcases List.mem_append.mp h with h | h
    · exact dispatchLoop_update_lt_del dial d leads 0 _ j r h
    · simp at h
  · unfold processJobModel
    simp only [Bool.false_eq_true, if_false, List.nil_append]
    exact ⟨_, _, _, (List.getLast?_append_cons _ _ _).trans rfl⟩

/-- Claim C7, witness: with deletion before iteration 1, lead 0's update
event is in the stream and the theorem bounds its index; the stream still
ends in a completion event. -/
theorem c7_witness :
    0 < 1
    ∧ ∃ a b t, ((processJobModel [leadA] false probeDropA dialOk (some 1)).2).getLast? =
        some (DEvent.completeEv a b t) :=
  ⟨(c7_halt_without_throw [leadA] probeDropA dialOk 1).1 0 (callingRes leadA) (by decide),
   (c7_halt_without_throw [leadA] probeDropA dialOk 1).2⟩

/-- Claim C8, counterexample: the claim says the dispatch loops never set
`outcome`, but the SMS loop writes `outcome: 'sent'` on a successful send
(line 309) before any provider event exists: after dispatching one lead, its
result already carries an outcome. -/
theorem c8_sms_outcome_counterexample :
    (((processSMSJobModel [leadA] sendOk none).1).get? 0).map (fun r => r.outcome) =
      some (some Outcome.sent) := by decide

/-- Claim C8, amended: the call-mode dispatch loop never sets `outcome` — a
call lead with no provider event has none — while the SMS dispatch loop
itself writes `outcome` `sent` or `error` at dispatch time; every other
outcome value is written only by the webhook resolvers. -/
theorem c8_dispatch_outcome :
    (∀ (leads : List Lead) (useProbe : Bool) (probe : Lead → ProbeRes)
        (dial : Nat → Except Str Nat) (del : Option Nat) (r : CallRes),
      r ∈ (processJobModel leads useProbe probe dial del).1 → r.outcome = none)
    ∧ (∀ (leads : List Lead) (send : Nat → Except Str Unit) (del : Option Nat)
        (r : CallRes),
      r ∈ (processSMSJobModel leads send del).1 →
      r.outcome = none ∨ r.outcome = some Outcome.sent ∨ r.outcome = some Outcome.err) := by
  constructor
  · intro leads useProbe probe dial del r hr
    unfold processJobModel at hr
    dsimp only at hr
    refine dispatchLoop_outcome_none dial del _ 0 _ ?_ r hr
    intro x hx
    rcases List.mem_map.mp hx with ⟨l, _, rfl⟩
    rfl
  · intro leads send del r hr
    unfold processSMSJobModel at hr
    dsimp only at hr
    refine smsLoop_outcome_shape send del _ 0 _ ?_ r hr
    intro x hx
    rcases List.mem_map.mp hx with ⟨l, _, rfl⟩
    exact Or.inl rfl

/-- Claim C8, witness: the amended theorem applied to the results of a
one-lead call job and a one-lead SMS job. -/
theorem c8_witness :
    (initiatedRes leadA 100).outcome = none
    ∧ ((sentRes leadA).outcome = none ∨ (sentRes leadA).outcome = some Outcome.sent ∨
        (sentRes leadA).outcome = some Outcome.err) :=
  ⟨c8_dispatch_outcome.1 [leadA] false probeDropA dialOk none (initiatedRes leadA 100)
      (by decide),
   c8_dispatch_outcome.2 [leadA] sendOk none (sentRes leadA) (by decide)⟩

end OmarCaller

